import Mathlib

/-!
Verification of the Memex local storage layer and its import/UI glue code.

The definitions below are a shallow embedding of:
* `src/search/search-index-new/storage/index.ts` — the `Storage` class:
  Dexie schema registration (`_initSchema`), the `collection` query helper
  typings, and `clearData`;
* `src/search/search-index-new/import.ts` — `importPage`;
* the `IndexDropdownContainer` React component — `handleTagSelection`.

JavaScript objects used as schema dictionaries are modelled as association
lists (`List (String × String)`) preserving key insertion order, and
`Object.assign` as an in-order override merge.  Effectful code is modelled
by an explicit list of emitted effects together with an optional runtime
error (a JS `TypeError` thrown while dereferencing `undefined`).
-/

namespace Memex

/-! ## Record models

`models.ts` is referenced but not part of the sources under verification;
the record types below carry just the indexed fields named by the base
schema, which is all the claims inspect. -/

structure Page where
  url : String
  deriving Repr, DecidableEq

structure Visit where
  time : Nat
  url : String
  deriving Repr, DecidableEq

structure Bookmark where
  url : String
  time : Nat
  deriving Repr, DecidableEq

structure Tag where
  name : String
  url : String
  deriving Repr, DecidableEq

structure FavIcon where
  hostname : String
  deriving Repr, DecidableEq

/-- The database contents: one list of records per table of the base schema. -/
structure DBState where
  pages : List Page
  visits : List Visit
  bookmarks : List Bookmark
  tags : List Tag
  favIcons : List FavIcon
  deriving Repr, DecidableEq

/-! ## Dexie schema registration (`Storage._initSchema`) -/

/-- A data migration, as carried by a `DexieSchema` history entry.  The
migration could transform the whole database; `_initSchema` never invokes
it (the upgrade callback body is a TODO stub). -/
def Migration : Type :=
  DBState → DBState

/-- One entry of the Dexie schema history handed to `_initSchema`
(`DexieSchema` in `storage/types.ts`): a version counter, the
added/changed table index definitions, and the entry's migrations. -/
structure DexieSchema where
  version : Nat
  schema : List (String × String)
  migrations : List Migration

/-- `const baseVersion = 1` in `_initSchema`. -/
def baseVersion : Nat :=
  1

/-- `const baseSchema = {...}` in `_initSchema`: table name ↦ Dexie index
specification string, in declaration order. -/
def baseSchema : List (String × String) :=
  [ ("pages", "url, *terms, *titleTerms, *urlTerms, domain, hostname"),
    ("visits", "[time+url], url"),
    ("bookmarks", "url, time"),
    ("tags", "[name+url], name, url"),
    ("favIcons", "hostname") ]

/-- Set key `k` to `v` in an insertion-ordered object: an existing key keeps
its position and gets the new value, a new key is appended (JS object
assignment semantics). -/
def setKey (m : List (String × String)) (k v : String) : List (String × String) :=
  if m.any (fun p => p.1 == k) then
    m.map (fun p => if p.1 == k then (k, v) else p)
  else
    m ++ [(k, v)]

/-- `Object.assign(base, upd)`: copy every own property of `upd` onto
`base`, in `upd`'s key order, returning the (mutated) target. -/
def objectAssign (base upd : List (String × String)) : List (String × String) :=
  upd.foldl (fun acc p => setKey acc p.1 p.2) base

/-- One Dexie `this.version(v).stores(s)` registration performed by
`_initSchema`, together with the migrations captured by that version's
upgrade callback. -/
structure Registration where
  version : Nat
  stores : List (String × String)
  migrations : List Migration

/-- The registrations performed by the `dexieHistory.forEach` loop of
`_initSchema`.  `cur` is the current value of the `baseSchema` object:
`Object.assign(baseSchema, schema)` mutates it, so each iteration merges
into the result of all previous merges. -/
def registerHistory (cur : List (String × String)) :
    List DexieSchema → List Registration
  | [] => []
  | e :: rest =>
      let s := objectAssign cur e.schema
      ⟨baseVersion + e.version, s, e.migrations⟩ :: registerHistory s rest

/-- All schema registrations performed by `_initSchema dexieHistory`: the
base schema at version 1, then one registration per history entry.  The
base registration carries no migrations (no `.upgrade` is attached to it). -/
def initSchemaRegs (dexieHistory : List DexieSchema) : List Registration :=
  ⟨baseVersion, baseSchema, []⟩ :: registerHistory baseSchema dexieHistory

/-- The upgrade callback attached to each post-base version:
`() => { migrations.forEach(migration => { /- TODO -/ }) }` — it iterates
the migrations but the loop body is empty, so the database is untouched. -/
def upgradeCallback (migrations : List Migration) (db : DBState) : DBState :=
  migrations.foldl (fun acc _ => acc) db

/-- The primary key of a Dexie index specification string: the first
comma-separated segment, trimmed (see
http://dexie.org/docs/Version/Version.stores()). -/
def primaryKey (spec : String) : String :=
  String.mk (((spec.toList.takeWhile (fun c => c ≠ ',')).dropWhile
      (fun c => c = ' ')).reverse.dropWhile (fun c => c = ' ')).reverse

/-! ## `IndexDropdownContainer.handleTagSelection` (filters reducer) -/

/-- JS `Array.prototype.findIndex`: index of the first element satisfying
`p`, or `-1` if none does. -/
def findIndex (p : α → Bool) : List α → Int
  | [] => -1
  | a :: l =>
      if p a then 0
      else
        let r := findIndex p l
        if r = -1 then -1 else r + 1

/-- The transformation `handleTagSelection` applies to `state.filters` for
a selected tag: prepend the tag when it is absent (`tagIndex === -1`),
otherwise remove it at its found index
(`[...tags.slice(0, tagIndex), ...tags.slice(tagIndex + 1)]`). -/
def handleTagSelection (filters : List String) (tag : String) : List String :=
  let tagIndex := findIndex (fun val => val == tag) filters
  if tagIndex = -1 then
    tag :: filters
  else
    filters.take tagIndex.toNat ++ filters.drop (tagIndex.toNat + 1)

/-- The schema obtained by folding `Object.assign` merges of the given
history entries' schema changes onto `cur`, in order. -/
def mergedSchema (cur : List (String × String)) (hist : List DexieSchema) : List (String × String) :=
  hist.foldl (fun acc e => objectAssign acc e.schema) cur

/-! ## `Storage.collection` (dexie-mongoify query helper) -/

/-- A Mongo-style filter query over records of type `T`, modelled by its
matching predicate. -/
def FilterQuery (T : Type) : Type :=
  T → Bool

/-- Result of `collection(...).update(query, update)`. -/
structure UpdateResult (T : Type) where
  modifiedCount : Nat
  table : List T

/-- Result of `collection(...).remove(query)`. -/
structure RemoveResult (T : Type) where
  deletedCount : Nat
  table : List T

/-- The four structured query operations `Storage.collection(name)`
exposes over a table, per the typings at `storage/index.ts` lines 30–40. -/
structure Collection (T : Type) where
  find : FilterQuery T → List T
  count : FilterQuery T → Nat
  update : FilterQuery T → (T → T) → UpdateResult T
  remove : FilterQuery T → RemoveResult T

/-- Modelled from the spec: the implementation behind `Storage.collection`
lives in the third-party `dexie-mongoify` addon, absent from the sources;
only its typings (`storage/index.ts` lines 30–40) are repo code.  Per
those typings and the spec's "structured queries (filter, count, update,
delete) over denormalized tables": `find` returns the records matching the
filter query, `count` the number of matching records, `update` the count
of modified records, `remove` the count of deleted records. -/
def Storage.collection {T : Type} (table : List T) : Collection T where
  find q := table.filter q
  count q := (table.filter q).length
  update q u := ⟨(table.filter q).length, table.map fun r => if q r then u r else r⟩
  remove q := ⟨(table.filter q).length, table.filter fun r => !q r⟩

/-! ## `Storage.clearData` -/

/-- Names of the tables held by `this.tables` on the base schema. -/
inductive TableName
  | pages
  | visits
  | bookmarks
  | tags
  | favIcons
  deriving Repr, DecidableEq

/-- `this.tables`: every table of the database, in schema order. -/
def Storage.tables : List TableName :=
  [.pages, .visits, .bookmarks, .tags, .favIcons]

/-- `table.clear()`: empty one table, leaving the others untouched. -/
def clearTable (db : DBState) : TableName → DBState
  | .pages => { db with pages := [] }
  | .visits => { db with visits := [] }
  | .bookmarks => { db with bookmarks := [] }
  | .tags => { db with tags := [] }
  | .favIcons => { db with favIcons := [] }

/-- `Storage.clearData`: clear each table of `this.tables` in succession. -/
def clearData (db : DBState) : DBState :=
  Storage.tables.foldl clearTable db

/-! ## `importPage` (migration/import pipeline) -/

/-- One visit of an exported page record: its timestamp plus the remaining
metadata fields (`{ timestamp, ...visit }` destructuring). -/
structure VisitRec where
  timestamp : Nat
  meta : List (String × String)
  deriving Repr, DecidableEq

/-- `Partial<ExportedPage>`: every field optional.  The fields are the
ones `importPage` reads. -/
structure ExportedPageOpt where
  text : Option String := none
  fullTitle : Option String := none
  fullUrl : Option String := none
  screenshotURI : Option String := none
  favIconURI : Option String := none
  url : Option String := none
  bookmark : Option Nat := none
  visits : Option (List VisitRec) := none
  tags : Option (List String) := none
  deriving Repr, DecidableEq

/-- The `content` subobject of the `pageDoc` passed to `addPage`. -/
structure PageContent where
  fullText : Option String
  title : Option String
  deriving Repr, DecidableEq

/-- The `pageDoc` object `importPage` builds for `addPage`. -/
structure PageDoc where
  content : PageContent
  url : Option String
  screenshotURI : Option String
  favIconURI : Option String
  deriving Repr, DecidableEq

/-- A storage effect emitted by `importPage`: a call to `addPage`,
`addTag` or `updateTimestampMeta` of `search-index-new/index.ts`. -/
inductive Effect
  | addPage (pageDoc : PageDoc) (bookmark : Option Nat) (visits : List Nat)
  | addTag (url : Option String) (tag : String)
  | updateTimestampMeta (url : Option String) (time : Nat) (meta : List (String × String))
  deriving Repr, DecidableEq

/-- A JS runtime error: here, the `TypeError` thrown by reading `.map` of
`undefined`. -/
inductive RuntimeError
  | typeError
  deriving Repr, DecidableEq

/-- `importPage`, as the ordered list of storage effects it issues
together with the runtime error, if any, that aborts it.  The source
dereferences `page.visits` (while building the `addPage` arguments) and
`page.tags` unconditionally; a missing field throws before any further
effect is issued.  A visit whose spread remainder has no keys triggers
`Promise.resolve()` instead of `updateTimestampMeta`. -/
def importPage (page : ExportedPageOpt) : List Effect × Option RuntimeError :=
  match page.visits with
  | none => ([], some .typeError)
  | some vs =>
      let pageEffect := Effect.addPage
        ⟨⟨page.text, page.fullTitle⟩, page.fullUrl, page.screenshotURI, page.favIconURI⟩
        page.bookmark (vs.map VisitRec.timestamp)
      match page.tags with
      | none => ([pageEffect], some .typeError)
      | some ts =>
          (pageEffect ::
            (ts.map (fun tag => Effect.addTag page.url tag) ++
              vs.filterMap fun v =>
                if v.meta.length > 0 then
                  some (Effect.updateTimestampMeta page.url v.timestamp v.meta)
                else
                  none),
            none)

/-! ## Concrete sample data for witnesses -/

/-- A concrete two-entry schema history used to witness the versioning
claims. -/
def demoHist : List DexieSchema :=
  [ ⟨1, [("pages", "url, domain"), ("directLinks", "url, pageTitle")], []⟩,
    ⟨2, [("tags", "[name+url], name, url, tagTitle")], [fun db => db]⟩ ]

/-- A sample database state. -/
def demoDB : DBState :=
  ⟨[⟨"https://test.com/a"⟩], [⟨1523, "https://test.com/a"⟩], [], [⟨"news", "https://test.com/a"⟩], []⟩

/-- A sample fully-populated exported page record. -/
def demoPage : ExportedPageOpt where
  text := some "full text"
  fullTitle := some "A title"
  fullUrl := some "https://test.com/a?q=1"
  screenshotURI := some "data:screenshot"
  favIconURI := some "data:favicon"
  url := some "test.com/a?q=1"
  bookmark := some 1600
  visits := some [⟨1500, []⟩, ⟨1510, [("duration", "20")]⟩]
  tags := some ["news", "work"]

/-! ## Theorems -/

theorem registerHistory_getElem? (hist : List DexieSchema) :
    ∀ (cur : List (String × String)) (i : Nat), i < hist.length →
      (registerHistory cur hist)[i]?.map (fun r => (r.version, r.stores)) =
        hist[i]?.map (fun e => (baseVersion + e.version, mergedSchema cur (hist.take (i + 1)))) := by
  induction hist with
  | nil =>
      intro cur i hi
      exact absurd hi (Nat.not_lt_zero i)
  | cons e rest ih =>
      intro cur i hi
      cases i with
      | zero =>
          simp [registerHistory, mergedSchema, objectAssign]
      | succ j =>
          have hj : j < rest.length := Nat.lt_of_succ_lt_succ hi
          simp only [registerHistory, List.getElem?_cons_succ, List.take_succ_cons]
          rw [ih (objectAssign cur e.schema) j hj]
          simp [mergedSchema]

/-- **C4** — The base schema registered at version 1 defines exactly five
tables — `pages`, `visits`, `bookmarks`, `tags`, `favIcons` — with primary
keys `url`, `[time+url]`, `url`, `[name+url]` and `hostname` respectively. -/
theorem baseSchema_tables_and_keys :
    baseSchema.map Prod.fst = ["pages", "visits", "bookmarks", "tags", "favIcons"] ∧
    baseSchema.map (fun p => primaryKey p.2) =
      ["url", "[time+url]", "url", "[name+url]", "hostname"] := by
  constructor <;> rfl

/-- **C1** — The schema registered at Dexie version `1 + vᵢ` for the `i`-th
history entry equals the base schema merged, via `Object.assign`, with the
schema changes of every history entry up to and including the `i`-th
(`Object.assign(baseSchema, schema)` mutates `baseSchema`, so the merges
accumulate). -/
theorem initSchema_schema_accumulates (hist : List DexieSchema) (i : Nat)
    (h : i < hist.length) :
    (initSchemaRegs hist)[i + 1]?.map (fun r => (r.version, r.stores)) =
      hist[i]?.map (fun e => (1 + e.version, mergedSchema baseSchema (hist.take (i + 1)))) := by
  simpa [initSchemaRegs, baseVersion] using registerHistory_getElem? hist baseSchema i h

/-- **C1 witness** — the second registered entry of `demoHist` carries the
base schema merged with both entries' changes, at version `1 + 2`. -/
theorem initSchema_schema_accumulates_witness :
    (initSchemaRegs demoHist)[2]?.map (fun r => (r.version, r.stores)) =
      demoHist[1]?.map (fun e => (1 + e.version, mergedSchema baseSchema (demoHist.take 2))) :=
  initSchema_schema_accumulates demoHist 1 (by simp [demoHist])

/-- Folding a function that ignores its second argument leaves the
accumulator unchanged. -/
theorem foldl_const_acc {l : List α} {db : β} :
    l.foldl (fun acc _ => acc) db = db := by
  induction l generalizing db with
  | nil => rfl
  | cons a l ih => exact ih

/-- **C2** — For every version registered by `_initSchema` beyond the base
version, the upgrade callback iterates the entry's migrations without
applying any of them: upgrading leaves every stored record of every table
unchanged. -/
theorem initSchema_upgrade_preserves_data (hist : List DexieSchema)
    (r : Registration) (_hr : r ∈ (initSchemaRegs hist).drop 1) (db : DBState) :
    upgradeCallback r.migrations db = db :=
  foldl_const_acc

/-- **C2 witness** — the upgrade registered for `demoHist`'s second entry
(which carries a migration) leaves `demoDB` unchanged. -/
theorem initSchema_upgrade_preserves_data_witness :
    upgradeCallback [fun db => db] demoDB = demoDB :=
  initSchema_upgrade_preserves_data demoHist
    ⟨1 + 2, mergedSchema baseSchema demoHist, [fun db => db]⟩
    (by
      show _ ∈ [_, _]
      right
      exact List.mem_singleton.mpr rfl)
    demoDB

theorem registerHistory_map_version (hist : List DexieSchema) :
    ∀ cur, (registerHistory cur hist).map Registration.version =
      hist.map (fun e => baseVersion + e.version) := by
  induction hist with
  | nil => intro cur; rfl
  | cons e rest ih =>
      intro cur
      simp only [registerHistory, List.map_cons]
      rw [ih]

/-- **C5** — `_initSchema` registers Dexie version `1 + version` for every
history entry (the base schema holding version 1), and the versions
registered for the history entries form a strictly increasing sequence
whenever the entries' version numbers are strictly increasing. -/
theorem initSchema_versions_increasing (hist : List DexieSchema)
    (h : List.Pairwise (fun a b => a < b) (hist.map DexieSchema.version)) :
    (initSchemaRegs hist).map Registration.version =
      1 :: hist.map (fun e => 1 + e.version) ∧
    List.Pairwise (fun a b => a < b)
      (((initSchemaRegs hist).drop 1).map Registration.version) := by
  constructor
  · simp only [initSchemaRegs, List.map_cons]
    rw [registerHistory_map_version]
    rfl
  · simp only [initSchemaRegs, List.drop_one, List.tail_cons]
    rw [registerHistory_map_version]
    rw [List.pairwise_map]
    rw [List.pairwise_map] at h
    exact h.imp fun hab => by
      simpa [baseVersion] using Nat.add_lt_add_left hab 1

/-- **C5 witness** — for `demoHist` (entry versions 1 < 2) the registered
versions are `[1, 2, 3]`, strictly increasing beyond the base. -/
theorem initSchema_versions_increasing_witness :
    (initSchemaRegs demoHist).map Registration.version =
      1 :: demoHist.map (fun e => 1 + e.version) ∧
    List.Pairwise (fun a b => a < b)
      (((initSchemaRegs demoHist).drop 1).map Registration.version) :=
  initSchema_versions_increasing demoHist (by simp [demoHist])

/-- If no element of `l` satisfies `p`, JS `findIndex` returns `-1`. -/
theorem findIndex_eq_neg_one_of_not_mem {p : α → Bool} {l : List α}
    (h : ∀ a ∈ l, p a = false) : findIndex p l = -1 := by
  induction l with
  | nil => rfl
  | cons a l ih =>
      have ha : p a = false := h a (List.mem_cons_self a l)
      have hl : findIndex p l = -1 := ih fun x hx => h x (List.mem_cons_of_mem a hx)
      simp [findIndex, ha, hl]

/-- **C10** — For a tag `t` not in `filters`, selecting `t` twice in
`IndexDropdownContainer.handleTagSelection` first prepends it and then
removes it at its found index, restoring exactly the original list. -/
theorem handleTagSelection_double_toggle (filters : List String) (t : String)
    (h : t ∉ filters) :
    handleTagSelection (handleTagSelection filters t) t = filters := by
  have habs : findIndex (fun val => val == t) filters = -1 := by
    apply findIndex_eq_neg_one_of_not_mem
    intro a ha
    have : a ≠ t := by
      intro heq
      exact h (heq ▸ ha)
    simp [this]
  have h1 : handleTagSelection filters t = t :: filters := by
    simp [handleTagSelection, habs]
  rw [h1]
  simp [handleTagSelection, findIndex]

/-- **C10 witness** — a concrete double toggle. -/
theorem handleTagSelection_double_toggle_witness :
    handleTagSelection (handleTagSelection ["css", "html"] "js") "js" = ["css", "html"] :=
  handleTagSelection_double_toggle ["css", "html"] "js" (by decide)

/-- **C3** — For an exported record with its `visits` and `tags` fields
present, `importPage` first calls `addPage` with a `pageDoc` whose content
`fullText` is the record's `text`, whose content `title` is the record's
`fullTitle` and whose `url` is the record's `fullUrl`, together with the
record's `screenshotURI`, `favIconURI` and `bookmark` and one visit per
timestamp of the record's visits; afterwards it issues an `addTag` call
associating each of the record's tags with the record's `url`. -/
theorem importPage_stores_record (p : ExportedPageOpt) (vs : List VisitRec)
    (ts : List String) (hv : p.visits = some vs) (ht : p.tags = some ts) :
    (importPage p).1.head? = some (Effect.addPage
        ⟨⟨p.text, p.fullTitle⟩, p.fullUrl, p.screenshotURI, p.favIconURI⟩
        p.bookmark (vs.map VisitRec.timestamp)) ∧
    ∀ t ∈ ts, Effect.addTag p.url t ∈ (importPage p).1.tail := by
  simp only [importPage, hv, ht]
  refine ⟨rfl, fun t htmem => ?_⟩
  simp only [List.tail_cons]
  exact List.mem_append_left _ (List.mem_map_of_mem _ htmem)

/-- **C3 witness** — the effects issued for the concrete record `demoPage`. -/
theorem importPage_stores_record_witness :
    (importPage demoPage).1.head? = some (Effect.addPage
        ⟨⟨demoPage.text, demoPage.fullTitle⟩, demoPage.fullUrl,
          demoPage.screenshotURI, demoPage.favIconURI⟩
        demoPage.bookmark [1500, 1510]) ∧
    ∀ t ∈ ["news", "work"], Effect.addTag demoPage.url t ∈ (importPage demoPage).1.tail :=
  importPage_stores_record demoPage [⟨1500, []⟩, ⟨1510, [("duration", "20")]⟩]
    ["news", "work"] rfl rfl

/-- **C6** — For every visit of an imported record, `importPage` issues an
`updateTimestampMeta` call with the visit's non-timestamp fields if and
only if the visit carries at least one field besides `timestamp`; a
bare-timestamp visit triggers no metadata update. -/
theorem importPage_visit_meta_update_iff (p : ExportedPageOpt) (vs : List VisitRec)
    (ts : List String) (hv : p.visits = some vs) (ht : p.tags = some ts)
    (v : VisitRec) (hvmem : v ∈ vs) :
    Effect.updateTimestampMeta p.url v.timestamp v.meta ∈ (importPage p).1 ↔
      v.meta ≠ [] := by
  simp only [importPage, hv, ht]
  constructor
  · intro hmem
    rcases List.mem_cons.mp hmem with h1 | h2
    · exact Effect.noConfusion h1
    · rcases List.mem_append.mp h2 with h3 | h4
      · rcases List.mem_map.mp h3 with ⟨t, _, heq⟩
        exact Effect.noConfusion heq
      · rcases List.mem_filterMap.mp h4 with ⟨v', _, heq⟩
        by_cases hc : v'.meta.length > 0
        · rw [if_pos hc] at heq
          have hmeta : v'.meta = v.meta := by
            injection Option.some.inj heq
          exact List.ne_nil_of_length_pos (hmeta ▸ hc)
        · rw [if_neg hc] at heq
          exact Option.noConfusion heq
  · intro hne
    apply List.mem_cons_of_mem
    apply List.mem_append_right
    apply List.mem_filterMap.mpr
    exact ⟨v, hvmem, if_pos (List.length_pos.mpr hne)⟩

/-- **C6 witness** — in `demoPage`, the visit at 1510 carries a `duration`
field and is reflected by an `updateTimestampMeta` effect. -/
theorem importPage_visit_meta_update_iff_witness :
    Effect.updateTimestampMeta demoPage.url 1510 [("duration", "20")] ∈
      (importPage demoPage).1 ↔ ([("duration", "20")] : List (String × String)) ≠ [] :=
  importPage_visit_meta_update_iff demoPage [⟨1500, []⟩, ⟨1510, [("duration", "20")]⟩]
    ["news", "work"] rfl rfl ⟨1510, [("duration", "20")]⟩ (by decide)

/-- **C8** — `importPage` dereferences `page.visits` and `page.tags`
unconditionally: when both fields are present it raises no runtime error,
while for an input record with `visits` absent it fails with a `TypeError`
before issuing any storage effect. -/
theorem importPage_partial_record_safety (p : ExportedPageOpt) (vs : List VisitRec)
    (ts : List String) (hv : p.visits = some vs) (ht : p.tags = some ts) :
    (importPage p).2 = none ∧
    ∃ q : ExportedPageOpt, q.visits = none ∧
      (importPage q).1 = [] ∧ (importPage q).2 = some RuntimeError.typeError := by
  refine ⟨?_, ⟨{}, rfl, rfl, rfl⟩⟩
  simp [importPage, hv, ht]

/-- **C8 witness** — `demoPage` imports without error; the all-absent
record fails before storing anything. -/
theorem importPage_partial_record_safety_witness :
    (importPage demoPage).2 = none ∧
    ∃ q : ExportedPageOpt, q.visits = none ∧
      (importPage q).1 = [] ∧ (importPage q).2 = some RuntimeError.typeError :=
  importPage_partial_record_safety demoPage [⟨1500, []⟩, ⟨1510, [("duration", "20")]⟩]
    ["news", "work"] rfl rfl

/-- **C7** — `Storage.collection` exposes the four structured query
operations of the typings: `find` returns the records matching the filter
query, `count` the number of records `find` returns, `update` the count of
modified (matching) records, and `remove` the count of deleted records,
the remaining table holding exactly the non-matching ones. -/
theorem collection_query_ops {T : Type} (table : List T) (q : FilterQuery T)
    (u : T → T) :
    (Storage.collection table).find q = table.filter q ∧
    (Storage.collection table).count q = ((Storage.collection table).find q).length ∧
    ((Storage.collection table).update q u).modifiedCount = (table.filter q).length ∧
    ((Storage.collection table).remove q).deletedCount = (table.filter q).length ∧
    ((Storage.collection table).remove q).table = table.filter (fun r => !q r) :=
  ⟨rfl, rfl, rfl, rfl, rfl⟩

/-- **C9** — After `Storage.clearData` runs, every table of the database
(`pages`, `visits`, `bookmarks`, `tags`, `favIcons`) is empty, whatever
the prior contents. -/
theorem clearData_empties_every_table (db : DBState) :
    (clearData db).pages = [] ∧ (clearData db).visits = [] ∧
    (clearData db).bookmarks = [] ∧ (clearData db).tags = [] ∧
    (clearData db).favIcons = [] :=
  ⟨rfl, rfl, rfl, rfl, rfl⟩

end Memex
